import Mathlib

/-!
Verification development for `src/monitor_and_notify.py` (Fumotoppara
reservation-calendar watcher).  The Python script is embedded shallowly:

* Python string operations are modelled by executable functions over
  `List Char` (`pyStrip` for `str.strip()`, `nlToSpace` for
  `.replace("\n", " ")`, `pyLower` for `str.lower()` on the ASCII range,
  `splitComma` for `str.split(",")`, and `containsSub` for the substring
  operator `in`);
* Selenium DOM queries are modelled as data: an `Elem` carries the three
  text sources the script falls back through (`.text`, `innerText`,
  `textContent`), a `Table` carries its header cells and rows, a `Page`
  carries the tables plus the body cells the script never inspects;
* exceptions are modelled with `Except`: the body of
  `detect_status_with_selenium` returns `Except Unit String` and the
  wrapper maps any error to `"UNKNOWN"`, mirroring the `try/except`;
* `main` is modelled by `runMain`, a pure function from the configuration,
  the page, the prior cache-file contents and a delivery-success flag to a
  `RunOutcome` (exit code plus final cache contents, or a propagated
  delivery failure).
-/

namespace Fumotoppara

/-- Does the second character list start with the first one? -/
def leadsList : List Char → List Char → Bool
  | [], _ => true
  | _ :: _, [] => false
  | a :: as, b :: bs => a == b && leadsList as bs

/-- Contiguous-sublist test on character lists. -/
def subList (needle : List Char) : List Char → Bool
  | [] => leadsList needle []
  | c :: rest => leadsList needle (c :: rest) || subList needle rest

/-- Python's substring operator `needle in hay` on strings. -/
def containsSub (hay needle : String) : Bool :=
  subList needle.data hay.data

/-- Python `str.strip()`: drop leading and trailing whitespace. -/
def pyStrip (s : String) : String :=
  String.mk (((s.data.dropWhile Char.isWhitespace).reverse.dropWhile
    Char.isWhitespace).reverse)

/-- Python `.replace("\n", " ")`: the pattern is a single character, so this
is a character map. -/
def nlToSpace (s : String) : String :=
  String.mk (s.data.map (fun c => if c = '\n' then ' ' else c))

/-- Python `str.lower()` restricted to ASCII letters (the script only
compares against the ASCII words `"x"` and `"unknown"`). -/
def pyLower (s : String) : String :=
  String.mk (s.data.map Char.toLower)

/-- Python `str.split(",")` on the character list. -/
def splitComma (l : List Char) : List (List Char) :=
  l.foldr
    (fun c acc =>
      if c = ',' then [] :: acc
      else
        match acc with
        | h :: t => (c :: h) :: t
        | [] => [[c]])
    [[]]

/-- Split a character list at whitespace (groups, possibly empty). -/
def wsGroups (l : List Char) : List (List Char) :=
  l.foldr
    (fun c acc =>
      if c.isWhitespace then [] :: acc
      else
        match acc with
        | h :: t => (c :: h) :: t
        | [] => [[c]])
    [[]]

/-- Join character-list groups with a single space. -/
def joinSp : List (List Char) → List Char
  | [] => []
  | [g] => g
  | g :: g2 :: gs => g ++ ' ' :: joinSp (g2 :: gs)

/-- XPath `normalize-space`: strip ends, collapse internal whitespace runs
to one space. -/
def normSpace (s : String) : String :=
  String.mk (joinSp ((wsGroups s.data).filter (fun g => g ≠ [])))

/-- A DOM element as the script reads it: the Selenium `.text` property and
the `innerText` / `textContent` attributes (`get_attribute` may return
`None`, hence `Option`). -/
structure Elem where
  text : String
  innerText : Option String
  textContent : Option String
deriving DecidableEq

/-- The `text` / `innerText` / `textContent` fallback chain the script
applies to both header cells and the target data cell: each candidate is
passed through `.strip().replace("\n", " ")` and the first non-empty one
wins. -/
def fallbackText (e : Elem) : String :=
  let t1 := nlToSpace (pyStrip e.text)
  if t1 ≠ "" then t1
  else
    let t2 := nlToSpace (pyStrip (e.innerText.getD ""))
    if t2 ≠ "" then t2
    else nlToSpace (pyStrip (e.textContent.getD ""))

/-- A table row: the string values of its `th` children (XPath reads the
node's string value) and its `td` cells. -/
structure Row where
  ths : List String
  tds : List Elem
deriving DecidableEq

/-- A table: the cells matched by `.//thead/tr/th | ./tr[1]/th`, and the
rows matched by `.//tr[...]` in document order. -/
structure Table where
  headerCells : List Elem
  rows : List Row
deriving DecidableEq

/-- `header_texts_from_table`: the fallback text of every header cell. -/
def header_texts_from_table (t : Table) : List String :=
  t.headerCells.map fallbackText

/-- An icon element inside a body cell (`alt` / `title` / `class` / aria
attributes).  The script under `src/` never reads these; they model the
page content a secondary scan would inspect. -/
structure IconElem where
  altAttr : Option String
  titleAttr : Option String
  classAttr : Option String
  ariaAttr : Option String
deriving DecidableEq

/-- A date-labelled cell in the page body outside any table. -/
structure BodyCell where
  text : String
  icons : List IconElem
deriving DecidableEq

/-- The rendered page: whether `driver.get` plus the body wait succeed, the
tables on the page, and the non-table body cells (never inspected by the
script). -/
structure Page where
  loadOk : Bool
  tables : List Table
  bodyCells : List BodyCell
deriving DecidableEq

/-- One digit at the head of the list. -/
def digitHead : List Char → Bool
  | c :: _ => c.isDigit
  | [] => false

/-- Does `re.search(r"\d{1,2}/\d{1,2}", ·)` match starting at this
position?  The quantifier `{1,2}` backtracks, so a match here is one or two
digits, a slash, then at least one digit. -/
def dateTokAt : List Char → Bool
  | a :: rest =>
    a.isDigit &&
      (match rest with
       | b :: rest2 =>
         (b == '/' && digitHead rest2)
           || (b.isDigit &&
                (match rest2 with
                 | c :: rest3 => c == '/' && digitHead rest3
                 | [] => false))
       | [] => false)
  | [] => false

/-- `re.search` succeeds somewhere in the list. -/
def hasDateTok : List Char → Bool
  | [] => false
  | c :: rest => dateTokAt (c :: rest) || hasDateTok rest

/-- A header text contains a date-like token `d{1,2}/d{1,2}`. -/
def headerHasDateTok (s : String) : Bool :=
  hasDateTok s.data

/-- The score of one table in `choose_calendar_table`:
`sum(1 for x in texts if re.search(r"\d{1,2}/\d{1,2}", x))`. -/
def tableScore (t : Table) : Nat :=
  (header_texts_from_table t).countP headerHasDateTok

/-- The selection loop of `choose_calendar_table`: `chosen`/`best` start as
`None`/`-1` and are replaced whenever a strictly greater score appears.
The index of the chosen table is tracked; the source keeps the element
reference itself. -/
def chooseAux : List Table → Nat → Option Nat → Int → Option Nat
  | [], _, chosen, _ => chosen
  | t :: rest, idx, chosen, best =>
    if best < (tableScore t : Int) then
      chooseAux rest (idx + 1) (some idx) (tableScore t)
    else
      chooseAux rest (idx + 1) chosen best

/-- Index of the table `choose_calendar_table` picks, if any. -/
def chooseIdx (ts : List Table) : Option Nat :=
  chooseAux ts 0 none (-1)

/-- `choose_calendar_table`: the element at the chosen index. -/
def choose_calendar_table (ts : List Table) : Option Table :=
  (chooseIdx ts).bind ts.get?

/-- The header scan for `TARGET_DATE_LABEL`: first index `i` with
`header_texts[i]` non-empty and containing the label as a substring
(`if txt and (TARGET_DATE_LABEL in txt)`), else `None` (`date_idx = -1`). -/
def findDateIdx (label : String) : List String → Option Nat
  | [] => none
  | txt :: rest =>
    if txt ≠ "" && containsSub txt label then some 0
    else (findDateIdx label rest).map (fun i => i + 1)

/-- The row predicate of the XPath
`.//tr[th[contains(normalize-space(.), 'キャンプ宿泊')]
      or normalize-space(th[1])='キャンプ宿泊']`:
some `th` child whose normalized string value contains the (hard-coded)
category label, or the first `th`'s normalized value equals it.
`normalize-space(th[1])` of a row without `th` is the empty string. -/
def rowMatchesCamp (r : Row) : Bool :=
  r.ths.any (fun th => containsSub (normSpace th) "キャンプ宿泊")
    || ((r.ths.head?.map normSpace).getD "") == "キャンプ宿泊"

/-- `find_element` on the row XPath: first matching row in document order,
`none` modelling the `NoSuchElementException`. -/
def findCampRow (t : Table) : Option Row :=
  t.rows.find? rowMatchesCamp

/-- Cell-text classification (source lines 270-276):
filled circle → `"○"`, else triangle or `残` → `"△"`, else cross → `"×"`,
else `"UNKNOWN"`. -/
def classifyCell (txt : String) : String :=
  if containsSub txt "〇" || containsSub txt "○" then "○"
  else if containsSub txt "△" || containsSub txt "残" then "△"
  else if containsSub txt "×" then "×"
  else "UNKNOWN"

/-- The `try`-block body of `detect_status_with_selenium`.  `Except.error`
models an uncaught Python exception inside the block: a failed page
load/wait, or the `NoSuchElementException` from the row lookup.  `td_idx =
date_idx - 1`; `date_idx = 0` makes it negative (explicit `UNKNOWN`), and
an out-of-range `td_idx` is the explicit `td_idx >= len(tds)` check. -/
def detectBody (dateLabel : String) (p : Page) : Except Unit String :=
  if p.loadOk = false then Except.error ()
  else
    match choose_calendar_table p.tables with
    | none => Except.ok "UNKNOWN"
    | some table =>
      match findDateIdx dateLabel (header_texts_from_table table) with
      | none => Except.ok "UNKNOWN"
      | some date_idx =>
        if date_idx = 0 then Except.ok "UNKNOWN"
        else
          match findCampRow table with
          | none => Except.error ()
          | some camp_row =>
            match camp_row.tds.get? (date_idx - 1) with
            | none => Except.ok "UNKNOWN"
            | some cell => Except.ok (classifyCell (fallbackText cell))

/-- `detect_status_with_selenium`: the `except Exception` clause maps any
error from the body to `"UNKNOWN"`. -/
def detect_status_with_selenium (dateLabel : String) (p : Page) : String :=
  match detectBody dateLabel p with
  | Except.ok s => s
  | Except.error _ => "UNKNOWN"

/-- `read_last`: cache file contents stripped, `""` when the file is
missing (`FileNotFoundError`). -/
def read_last (file : Option String) : String :=
  match file with
  | none => ""
  | some c => pyStrip c

/-- `write_last`: the cache file after writing the status string. -/
def write_last (s : String) : Option String :=
  some s

/-- `norm`: status normalisation for the comparison (`×` → `"x"`,
`UNKNOWN` → `"unknown"`, `○`/`△` unchanged). -/
def norm (s : String) : String :=
  let t := pyStrip s
  if pyLower t = "x" ∨ pyLower t = "unknown" then pyLower t
  else if t = "×" then "x"
  else if t = "UNKNOWN" then "unknown"
  else t

/-- `is_notifiable`: `(prev, curr) in {("x", "○"), ("x", "△")}`. -/
def is_notifiable (prev curr : String) : Bool :=
  (prev == "x" && curr == "○") || (prev == "x" && curr == "△")

/-- The environment-derived configuration of `main`.  `env` maps an unset
or blank variable to its default, so `CHANNEL_TOKEN`, `TO_USER_ID` and
`TO_GROUP_ID` are `none` exactly when Python sees a falsy value. -/
structure Config where
  channelToken : Option String
  sendMode : String
  toUserId : Option String
  toGroupId : Option String
  userIdsCsv : String
deriving DecidableEq

/-- `[s for s in USER_IDS_CSV.split(",") if s.strip()]`. -/
def idsOf (cfg : Config) : List String :=
  ((splitComma cfg.userIdsCsv.data).map String.mk).filter
    (fun s => pyStrip s ≠ "")

/-- Outcome of one `main` run: `sys.exit(code)` with the cache file in its
final state and whether a message was delivered, or a propagated HTTP
delivery failure (`raise_for_status`), which aborts `main` before the cache
write. -/
inductive RunOutcome where
  | exited (code : Nat) (cache : Option String) (notified : Bool)
  | deliveryFailed (cache : Option String)
deriving DecidableEq

/-- `main`, as a function of the configuration, the date label, the page,
the prior cache-file contents, and whether the (single) outbound LINE call
would succeed.  Control flow mirrors the source: token check (`exit 2`),
detection, normalisation, the A-plan trigger, per-mode delivery with the
recipient checks (`exit 3`), then the unconditional cache write and
`exit 0` — unless delivery raised first. -/
def runMain (cfg : Config) (dateLabel : String) (p : Page)
    (cacheFile : Option String) (deliveryOk : Bool) : RunOutcome :=
  match cfg.channelToken with
  | none => RunOutcome.exited 2 cacheFile false
  | some _ =>
    let last := read_last cacheFile
    let status := detect_status_with_selenium dateLabel p
    let prev := norm last
    let curr := norm status
    if is_notifiable prev curr then
      if cfg.sendMode = "broadcast" then
        if deliveryOk then RunOutcome.exited 0 (write_last status) true
        else RunOutcome.deliveryFailed cacheFile
      else if cfg.sendMode = "multicast" then
        if idsOf cfg = [] then RunOutcome.exited 3 cacheFile false
        else if deliveryOk then RunOutcome.exited 0 (write_last status) true
        else RunOutcome.deliveryFailed cacheFile
      else
        match cfg.toGroupId <|> cfg.toUserId with
        | none => RunOutcome.exited 3 cacheFile false
        | some _ =>
          if deliveryOk then RunOutcome.exited 0 (write_last status) true
          else RunOutcome.deliveryFailed cacheFile
    else RunOutcome.exited 0 (write_last status) false

/-- Modelled from the spec: the secondary body-scan path of the detector
(spec section 4.1 step 6) — "scans for date-labeled cells directly in the
page body and inspects child icon elements' alt/title/class/aria attributes
against keyword lists (soldout/full/close → Full; few/limited → Limited;
available/open → Available)".  No such path exists in
`src/monitor_and_notify.py`; this definition exists only to state what the
claim asserts the detector does. -/
def specSecondaryScan (dateLabel : String) (cells : List BodyCell) : String :=
  match cells.find? (fun c => containsSub c.text dateLabel) with
  | none => "UNKNOWN"
  | some c =>
    let attrs := c.icons.foldr
      (fun ic acc =>
        [ic.altAttr, ic.titleAttr, ic.classAttr, ic.ariaAttr].filterMap id
          ++ acc) []
    if attrs.any (fun a =>
        containsSub a "soldout" || containsSub a "full"
          || containsSub a "close") then "×"
    else if attrs.any (fun a =>
        containsSub a "few" || containsSub a "limited") then "△"
    else if attrs.any (fun a =>
        containsSub a "available" || containsSub a "open") then "○"
    else "UNKNOWN"

/-- Placeholder table for positional (`getD`) statements. -/
def dummyTable : Table :=
  ⟨[], []⟩

/-- The running maximum the selection loop computes: `-1` before any table,
then the greatest score. -/
def bestScore (ts : List Table) : Int :=
  ts.foldr (fun t acc => max (tableScore t : Int) acc) (-1)

/-! ### Concrete fixtures for witnesses and counterexamples -/

/-- An element whose Selenium `.text` already carries the content. -/
def elemOf (s : String) : Elem :=
  ⟨s, none, none⟩

/-- A page whose only table has the date label `12/31` in its second
header and a `キャンプ宿泊` row whose cell reads `○`. -/
def pageAvail : Page :=
  ⟨true, [⟨[elemOf "区分", elemOf "12/31"],
           [⟨["キャンプ宿泊"], [elemOf "○"]⟩]⟩], []⟩

/-- A page whose only matching row matches through its second header cell:
the leading `th` does not contain the category label, the second does. -/
def pageSecondTh : Page :=
  ⟨true, [⟨[elemOf "区分", elemOf "12/31"],
           [⟨["場内MAP", "のキャンプ宿泊枠"], [elemOf "○"]⟩]⟩], []⟩

/-- A page with no table but a date-labelled body cell carrying a
`soldout` icon. -/
def pageIconOnly : Page :=
  ⟨true, [], [⟨"12/31", [⟨some "soldout", none, none, none⟩]⟩]⟩

/-- A page whose table headers nowhere contain `12/31`. -/
def pageNoDate : Page :=
  ⟨true, [⟨[elemOf "区分", elemOf "1/1"],
           [⟨["キャンプ宿泊"], [elemOf "○"]⟩]⟩], []⟩

/-- A page whose table has no row matching the category label. -/
def pageNoCampRow : Page :=
  ⟨true, [⟨[elemOf "区分", elemOf "12/31"],
           [⟨["テントサイト"], [elemOf "○"]⟩]⟩], []⟩

/-- Multicast configuration with an empty user-id list. -/
def cfgMulti : Config :=
  ⟨some "tok", "multicast", none, none, ""⟩

/-- Push configuration with a user id present. -/
def cfgPush : Config :=
  ⟨some "tok", "push", some "U1", none, ""⟩

/-- Broadcast configuration. -/
def cfgBroadcast : Config :=
  ⟨some "tok", "broadcast", none, none, ""⟩

/-- Two demo tables: the first with no date-like header, the second with
two. -/
def demoT0 : Table :=
  ⟨[elemOf "区分"], []⟩

/-- Second demo table, score `2`. -/
def demoT1 : Table :=
  ⟨[elemOf "12/31", elemOf "1/1"], []⟩

/-- The demo table list for the selection witness. -/
def demoTs : List Table :=
  [demoT0, demoT1]

/-! ### Helper lemmas -/

/-- A cell classification is always one of the four status strings. -/
theorem classifyCell_cases (txt : String) :
    classifyCell txt = "○" ∨ classifyCell txt = "△" ∨
      classifyCell txt = "×" ∨ classifyCell txt = "UNKNOWN" := by
  unfold classifyCell
  split_ifs <;> simp

/-- Every successful body result is `"UNKNOWN"` or a cell
classification. -/
theorem detectBody_ok_shape (dateLabel : String) (p : Page) (s : String)
    (h : detectBody dateLabel p = Except.ok s) :
    s = "UNKNOWN" ∨ ∃ txt, s = classifyCell txt := by
  unfold detectBody at h
  repeat' split at h
  all_goals first
    | exact Except.noConfusion h
    | exact Or.inl (Except.ok.inj h).symm
    | exact Or.inr ⟨_, (Except.ok.inj h).symm⟩

/-- If every successful body result is `"UNKNOWN"`, so is the detector
result. -/
theorem detect_eq_unknown_of (dateLabel : String) (p : Page)
    (h : ∀ s, detectBody dateLabel p = Except.ok s → s = "UNKNOWN") :
    detect_status_with_selenium dateLabel p = "UNKNOWN" := by
  unfold detect_status_with_selenium
  cases hb : detectBody dateLabel p with
  | ok s => exact h s hb
  | error e => rfl

/-- The header scan finds no column when no header text contains the
label. -/
theorem findDateIdx_none (label : String) :
    ∀ l : List String, (∀ x ∈ l, containsSub x label = false) →
      findDateIdx label l = none := by
  intro l
  induction l with
  | nil => intro _; rfl
  | cons a rest ih =>
    intro h
    have ha : containsSub a label = false := h a (by simp)
    have hr : findDateIdx label rest = none :=
      ih (fun x hx => h x (by simp [hx]))
    simp [findDateIdx, ha, hr]

/-! ### Claim theorems -/

/-- Claim C1: for every pair of normalized previous and current states,
`is_notifiable prev curr` is `true` exactly when the transition is
Full-to-Available (`"x"` to `"○"`) or Full-to-Limited (`"x"` to `"△"`); in
particular a Full→Available observation triggers a notification and an
Available→Available observation does not. -/
theorem C1_is_notifiable_iff :
    (∀ prev curr : String,
      is_notifiable prev curr = true ↔
        ((prev = "x" ∧ curr = "○") ∨ (prev = "x" ∧ curr = "△"))) ∧
    is_notifiable (norm "×") (norm "○") = true ∧
    is_notifiable (norm "○") (norm "○") = false := by
  refine ⟨fun prev curr => ?_, by decide, by decide⟩
  simp [is_notifiable]

/-- Witness for C1: the Full→Limited transition notifies. -/
theorem C1_is_notifiable_iff_witness :
    is_notifiable "x" "△" = true :=
  (C1_is_notifiable_iff.1 "x" "△").mpr (Or.inr ⟨rfl, rfl⟩)

/-- Claim C2: classification of a resolved cell text follows symbol
precedence — a filled-circle glyph gives Available, else a triangle glyph
or `残` gives Limited, else a cross glyph gives Full, else Unknown. -/
theorem C2_classify_precedence (txt : String) :
    (classifyCell txt = "○" ↔
      (containsSub txt "〇" = true ∨ containsSub txt "○" = true)) ∧
    (classifyCell txt = "△" ↔
      (¬(containsSub txt "〇" = true ∨ containsSub txt "○" = true) ∧
        (containsSub txt "△" = true ∨ containsSub txt "残" = true))) ∧
    (classifyCell txt = "×" ↔
      (¬(containsSub txt "〇" = true ∨ containsSub txt "○" = true) ∧
        ¬(containsSub txt "△" = true ∨ containsSub txt "残" = true) ∧
        containsSub txt "×" = true)) ∧
    (classifyCell txt = "UNKNOWN" ↔
      (¬(containsSub txt "〇" = true ∨ containsSub txt "○" = true) ∧
        ¬(containsSub txt "△" = true ∨ containsSub txt "残" = true) ∧
        ¬containsSub txt "×" = true)) := by
  have d1 : ("○" : String) ≠ "△" := by decide
  have d2 : ("○" : String) ≠ "×" := by decide
  have d3 : ("○" : String) ≠ "UNKNOWN" := by decide
  have d4 : ("△" : String) ≠ "×" := by decide
  have d5 : ("△" : String) ≠ "UNKNOWN" := by decide
  have d6 : ("×" : String) ≠ "UNKNOWN" := by decide
  unfold classifyCell
  split_ifs with h1 h2 h3 <;> simp_all

/-- Witness for C2: a cell reading `残り3` classifies as Limited. -/
theorem C2_classify_precedence_witness :
    classifyCell "残り3" = "△" :=
  (C2_classify_precedence "残り3").2.1.mpr (by decide)

/-- Claim C3: any exception raised inside the detection body is caught and
mapped to `"UNKNOWN"`, and the detector always returns one of the four
status strings — a detection failure never aborts the run. -/
theorem C3_detect_never_fails (dateLabel : String) (p : Page) :
    (∀ e, detectBody dateLabel p = Except.error e →
      detect_status_with_selenium dateLabel p = "UNKNOWN") ∧
    (detect_status_with_selenium dateLabel p = "○" ∨
      detect_status_with_selenium dateLabel p = "△" ∨
      detect_status_with_selenium dateLabel p = "×" ∨
      detect_status_with_selenium dateLabel p = "UNKNOWN") := by
  constructor
  · intro e he
    unfold detect_status_with_selenium
    rw [he]
  · unfold detect_status_with_selenium
    cases hb : detectBody dateLabel p with
    | error e => simp
    | ok s =>
      rcases detectBody_ok_shape dateLabel p s hb with h | ⟨txt, h⟩
      · simp [h]
      · simpa [h] using classifyCell_cases txt

/-- Witness for C3: a failed page load yields `"UNKNOWN"`. -/
theorem C3_detect_never_fails_witness :
    detect_status_with_selenium "12/31" (Page.mk false [] []) = "UNKNOWN" :=
  (C3_detect_never_fails "12/31" (Page.mk false [] [])).1 () rfl

/-- Claim C4: when the date label is a substring of no header-cell text of
the chosen table, the detector returns `"UNKNOWN"` (and does not crash),
for every list of header texts. -/
theorem C4_date_label_absent (dateLabel : String) (p : Page)
    (h : ∀ x ∈ (choose_calendar_table p.tables).elim []
        header_texts_from_table, containsSub x dateLabel = false) :
    detect_status_with_selenium dateLabel p = "UNKNOWN" := by
  apply detect_eq_unknown_of
  intro s hs
  unfold detectBody at hs
  split at hs
  · simp at hs
  · cases hc : choose_calendar_table p.tables with
    | none =>
      rw [hc] at hs
      simpa using (Except.ok.inj hs).symm
    | some t =>
      rw [hc] at hs
      rw [hc] at h
      have hnone : findDateIdx dateLabel (header_texts_from_table t) = none :=
        findDateIdx_none dateLabel (header_texts_from_table t)
          (by simpa using h)
      simp [hnone] at hs
      first
        | exact hs
        | exact hs.symm

/-- Witness for C4: a page whose headers nowhere contain `12/31`. -/
theorem C4_date_label_absent_witness :
    detect_status_with_selenium "12/31" pageNoDate = "UNKNOWN" :=
  C4_date_label_absent "12/31" pageNoDate (by decide)

/-- Counterexample to C5 as stated: in `pageSecondTh` no row has a
*leading* header cell matching the category label (neither containing it
after whitespace normalisation nor equal to it), yet the detector returns
`"○"`, not `"UNKNOWN"` — the row XPath accepts a match in any `th` of the
row, here the second one. -/
theorem C5_counterexample :
    detect_status_with_selenium "12/31" pageSecondTh = "○" ∧
    (∀ t ∈ pageSecondTh.tables, ∀ r ∈ t.rows, ∀ th0,
      r.ths.head? = some th0 →
        containsSub (normSpace th0) "キャンプ宿泊" = false ∧
          normSpace th0 ≠ "キャンプ宿泊") ∧
    ("○" : String) ≠ "UNKNOWN" := by decide

/-- Claim C5 (amended): if no row of the chosen table has *any* header
cell whose normalized text contains the category label (and no leading
header cell equal to it, i.e. no row satisfies the XPath predicate), the
detector returns `"UNKNOWN"`, for every table content. -/
theorem C5_category_row_absent (dateLabel : String) (p : Page)
    (h : ∀ r ∈ (choose_calendar_table p.tables).elim [] Table.rows,
      rowMatchesCamp r = false) :
    detect_status_with_selenium dateLabel p = "UNKNOWN" := by
  apply detect_eq_unknown_of
  intro s hs
  unfold detectBody at hs
  split at hs
  · exact Except.noConfusion hs
  · cases hc : choose_calendar_table p.tables with
    | none =>
      rw [hc] at hs
      exact (Except.ok.inj hs).symm
    | some t =>
      rw [hc] at hs
      rw [hc] at h
      have hrow : findCampRow t = none := by
        unfold findCampRow
        apply List.find?_eq_none.mpr
        intro r hr
        simpa using h r hr
      cases hd : findDateIdx dateLabel (header_texts_from_table t) with
      | none =>
        simp [hd] at hs
        first
          | exact hs
          | exact hs.symm
      | some di =>
        by_cases h0 : di = 0
        · simp [hd, h0] at hs
          first
            | exact hs
            | exact hs.symm
        · simp [hd, h0, hrow] at hs

/-- Witness for C5 (amended): a table whose only row is labelled
`テントサイト`. -/
theorem C5_category_row_absent_witness :
    detect_status_with_selenium "12/31" pageNoCampRow = "UNKNOWN" :=
  C5_category_row_absent "12/31" pageNoCampRow (by decide)

/-- Counterexample to C7 as stated: on a page with no table but with a
date-labelled body cell whose icon carries a `soldout` attribute, the
claimed secondary path would produce Full (`"×"`), but the detector
returns `"UNKNOWN"` — no secondary body scan exists in the source. -/
theorem C7_counterexample :
    detect_status_with_selenium "12/31" pageIconOnly = "UNKNOWN" ∧
    specSecondaryScan "12/31" pageIconOnly.bodyCells = "×" ∧
    ("UNKNOWN" : String) ≠ "×" := by decide

/-- Claim C7 (amended): when no table layout is found on the page, the
detector returns `"UNKNOWN"` directly; the body cells and their icon
attributes are never inspected (they are quantified over here and do not
affect the result). -/
theorem C7_no_secondary_path (dateLabel : String) (p : Page)
    (h : choose_calendar_table p.tables = none) :
    detect_status_with_selenium dateLabel p = "UNKNOWN" := by
  apply detect_eq_unknown_of
  intro s hs
  unfold detectBody at hs
  split at hs
  · exact Except.noConfusion hs
  · rw [h] at hs
    exact (Except.ok.inj hs).symm

/-- Witness for C7 (amended): the table-free page with a soldout icon. -/
theorem C7_no_secondary_path_witness :
    detect_status_with_selenium "12/31" pageIconOnly = "UNKNOWN" :=
  C7_no_secondary_path "12/31" pageIconOnly rfl

/-- Counterexample to C6 as stated: a run in multicast mode with an empty
user-id list that observes the notifiable transition `×`→`○` exits with
code 3 before reaching the cache write, so at the end of that run the
cache file still holds the previous value `×`, not the freshly computed
`○`. -/
theorem C6_counterexample :
    runMain cfgMulti "12/31" pageAvail (some "×") true =
      RunOutcome.exited 3 (some "×") false ∧
    detect_status_with_selenium "12/31" pageAvail = "○" ∧
    some "×" ≠ write_last "○" := by decide

/-- Claim C6 (amended): at the end of every run that completes
successfully (exit code 0), the cache file holds exactly the state string
computed by the detector in that run, overwriting whatever value was
stored before, regardless of whether a notification was sent. -/
theorem C6_cache_write (cfg : Config) (dateLabel : String) (p : Page)
    (cacheFile : Option String) (deliveryOk : Bool) (cache : Option String)
    (notified : Bool)
    (h : runMain cfg dateLabel p cacheFile deliveryOk =
      RunOutcome.exited 0 cache notified) :
    cache = write_last (detect_status_with_selenium dateLabel p) := by
  unfold runMain at h
  cases htok : cfg.channelToken with
  | none =>
    rw [htok] at h
    simp at h
  | some tok =>
    rw [htok] at h
    simp only [] at h
    repeat' split at h
    all_goals simp_all

/-- Witness for C6 (amended): a quiet run (no transition) still rewrites
the cache with the computed state. -/
theorem C6_cache_write_witness :
    some "○" = write_last (detect_status_with_selenium "12/31" pageAvail) :=
  C6_cache_write cfgPush "12/31" pageAvail (some "○") true (some "○") false
    (by decide)

/-- Counterexample to C9 as stated: multicast mode with an empty user-id
list does not always exit with code 3 — when no notification is triggered
the recipient check is skipped and the run exits with code 0. -/
theorem C9_counterexample :
    cfgMulti.sendMode = "multicast" ∧ idsOf cfgMulti = [] ∧
    runMain cfgMulti "12/31" pageAvail (some "○") true =
      RunOutcome.exited 0 (some "○") false ∧
    (0 : Nat) ≠ 3 := by decide

/-- Claim C9 (amended): the process exits with code 2 whenever the channel
token is unset; it exits with code 0 (writing the cache) on a successful
run — in particular when no notification is triggered, and when a
broadcast delivery succeeds; and when a notification is triggered it exits
with code 3 if multicast mode has an empty user-id list, or if push mode
has neither a group id nor a user id. -/
theorem C9_exit_codes (cfg : Config) (dateLabel : String) (p : Page)
    (cacheFile : Option String) (deliveryOk : Bool) :
    (cfg.channelToken = none →
      runMain cfg dateLabel p cacheFile deliveryOk =
        RunOutcome.exited 2 cacheFile false) ∧
    (cfg.channelToken ≠ none →
      is_notifiable (norm (read_last cacheFile))
          (norm (detect_status_with_selenium dateLabel p)) = false →
      runMain cfg dateLabel p cacheFile deliveryOk =
        RunOutcome.exited 0
          (write_last (detect_status_with_selenium dateLabel p)) false) ∧
    (cfg.channelToken ≠ none →
      is_notifiable (norm (read_last cacheFile))
          (norm (detect_status_with_selenium dateLabel p)) = true →
      cfg.sendMode = "multicast" → idsOf cfg = [] →
      runMain cfg dateLabel p cacheFile deliveryOk =
        RunOutcome.exited 3 cacheFile false) ∧
    (cfg.channelToken ≠ none →
      is_notifiable (norm (read_last cacheFile))
          (norm (detect_status_with_selenium dateLabel p)) = true →
      cfg.sendMode ≠ "broadcast" → cfg.sendMode ≠ "multicast" →
      cfg.toGroupId = none → cfg.toUserId = none →
      runMain cfg dateLabel p cacheFile deliveryOk =
        RunOutcome.exited 3 cacheFile false) ∧
    (cfg.channelToken ≠ none →
      is_notifiable (norm (read_last cacheFile))
          (norm (detect_status_with_selenium dateLabel p)) = true →
      cfg.sendMode = "broadcast" → deliveryOk = true →
      runMain cfg dateLabel p cacheFile deliveryOk =
        RunOutcome.exited 0
          (write_last (detect_status_with_selenium dateLabel p)) true) := by
  refine ⟨?_, ?_, ?_, ?_, ?_⟩
  · intro htok
    simp [runMain, htok]
  · intro htok hnotif
    cases htok' : cfg.channelToken with
    | none => exact absurd htok' htok
    | some tok => simp [runMain, htok', hnotif]
  · intro htok hnotif hmode hids
    cases htok' : cfg.channelToken with
    | none => exact absurd htok' htok
    | some tok =>
      have hmode' : cfg.sendMode ≠ "broadcast" := by
        rw [hmode]; decide
      simp [runMain, htok', hnotif, hmode, hmode', hids]
  · intro htok hnotif hb hm hg hu
    cases htok' : cfg.channelToken with
    | none => exact absurd htok' htok
    | some tok =>
      simp [runMain, htok', hnotif, hb, hm, hg, hu]
  · intro htok hnotif hmode hok
    cases htok' : cfg.channelToken with
    | none => exact absurd htok' htok
    | some tok => simp [runMain, htok', hnotif, hmode, hok]

/-- Witness for C9 (amended): the notifiable multicast run with an empty
recipient list exits with code 3 and an unchanged cache. -/
theorem C9_exit_codes_witness :
    runMain cfgMulti "12/31" pageAvail (some "×") true =
      RunOutcome.exited 3 (some "×") false :=
  (C9_exit_codes cfgMulti "12/31" pageAvail (some "×") true).2.2.1
    (by decide) (by decide) rfl (by decide)

/-- Claim C10: if the outbound messaging call fails, the exception
propagates out of `main` before the cache write — the run ends in
`deliveryFailed` and the cache file keeps the previously stored state
unchanged. The delivery call happens only when a notification is
triggered and the per-mode recipient check passes, hence the
hypotheses. -/
theorem C10_delivery_failure_keeps_cache (cfg : Config) (dateLabel : String)
    (p : Page) (cacheFile : Option String)
    (htok : cfg.channelToken ≠ none)
    (hnotif : is_notifiable (norm (read_last cacheFile))
      (norm (detect_status_with_selenium dateLabel p)) = true)
    (hrecip : cfg.sendMode = "broadcast" ∨
      (cfg.sendMode = "multicast" ∧ idsOf cfg ≠ []) ∨
      (cfg.sendMode ≠ "broadcast" ∧ cfg.sendMode ≠ "multicast" ∧
        (cfg.toGroupId <|> cfg.toUserId) ≠ none)) :
    runMain cfg dateLabel p cacheFile false =
      RunOutcome.deliveryFailed cacheFile := by
  cases htok' : cfg.channelToken with
  | none => exact absurd htok' htok
  | some tok =>
    rcases hrecip with hb | ⟨hm, hids⟩ | ⟨hnb, hnm, hor⟩
    · simp [runMain, htok', hnotif, hb]
    · have hnb : cfg.sendMode ≠ "broadcast" := by
        rw [hm]; decide
      simp [runMain, htok', hnotif, hm, hnb, hids]
    · cases hor' : (cfg.toGroupId <|> cfg.toUserId) with
      | none => exact absurd hor' hor
      | some target => simp [runMain, htok', hnotif, hnb, hnm, hor']

/-- Witness for C10: a broadcast run over the `×`→`○` transition whose
delivery fails keeps the cache at `×`. -/
theorem C10_delivery_failure_keeps_cache_witness :
    runMain cfgBroadcast "12/31" pageAvail (some "×") false =
      RunOutcome.deliveryFailed (some "×") :=
  C10_delivery_failure_keeps_cache cfgBroadcast "12/31" pageAvail (some "×")
    (by decide) (by decide) (Or.inl rfl)

/-- `bestScore` unfolds on a cons cell. -/
theorem bestScore_cons (t : Table) (ts : List Table) :
    bestScore (t :: ts) = max (tableScore t : Int) (bestScore ts) := rfl

/-- Every member's score is bounded by the running maximum. -/
theorem le_bestScore (ts : List Table) :
    ∀ t ∈ ts, (tableScore t : Int) ≤ bestScore ts := by
  induction ts with
  | nil => intro t ht; cases ht
  | cons a rest ih =>
    intro t ht
    rw [bestScore_cons]
    rcases List.mem_cons.mp ht with h | h
    · subst h; exact le_max_left _ _
    · exact le_trans (ih t h) (le_max_right _ _)

/-- `get?` at an in-range index returns the `getD` value. -/
theorem get?_getD_of_lt {α : Type} (d : α) (l : List α) (j : Nat)
    (h : j < l.length) : l.get? j = some (l.getD j d) := by
  induction l generalizing j with
  | nil => simp at h
  | cons a rest ih =>
    cases j with
    | zero => rfl
    | succ k => exact ih k (by simpa using h)

/-- Behaviour of the selection loop of `choose_calendar_table`: starting
from a running best of `best ≥ -1`, the loop leaves `chosen` untouched
when no score exceeds `best`, and otherwise returns the absolute index of
the earliest table achieving the maximum score. -/
theorem chooseAux_spec :
    ∀ (ts : List Table) (idx : Nat) (chosen : Option Nat) (best : Int),
      -1 ≤ best →
      (bestScore ts ≤ best → chooseAux ts idx chosen best = chosen) ∧
      (best < bestScore ts →
        ∃ j, j < ts.length ∧
          chooseAux ts idx chosen best = some (idx + j) ∧
          (tableScore (ts.getD j dummyTable) : Int) = bestScore ts ∧
          ∀ k, k < j →
            (tableScore (ts.getD k dummyTable) : Int) < bestScore ts) := by
  intro ts
  induction ts with
  | nil =>
    intro idx chosen best hbest
    constructor
    · intro _; rfl
    · intro hlt
      exfalso
      simp only [bestScore, List.foldr] at hlt
      omega
  | cons t rest ih =>
    intro idx chosen best hbest
    by_cases hlt : best < (tableScore t : Int)
    · have hrec := ih (idx + 1) (some idx) (tableScore t)
        (le_trans (by omega) (Int.natCast_nonneg _))
      obtain ⟨hA1, hA2⟩ := hrec
      have hstep : chooseAux (t :: rest) idx chosen best
          = chooseAux rest (idx + 1) (some idx) (tableScore t) := by
        simp [chooseAux, hlt]
      constructor
      · intro hle
        exfalso
        rw [bestScore_cons] at hle
        have := le_max_left (tableScore t : Int) (bestScore rest)
        omega
      · intro _
        by_cases hbr : bestScore rest ≤ (tableScore t : Int)
        · refine ⟨0, by simp, ?_, ?_, ?_⟩
          · rw [hstep, hA1 hbr]
            simp
          · rw [bestScore_cons]
            simp only [List.getD_cons_zero]
            exact (max_eq_left hbr).symm
          · intro k hk
            exact absurd hk (Nat.not_lt_zero k)
        · push_neg at hbr
          obtain ⟨j', hj'len, hj'eq, hj'max, hj'str⟩ := hA2 hbr
          have hmax : max (tableScore t : Int) (bestScore rest)
              = bestScore rest := max_eq_right (le_of_lt hbr)
          refine ⟨j' + 1, by simp only [List.length_cons]; omega, ?_, ?_, ?_⟩
          · rw [hstep, hj'eq]
            congr 1
            omega
          · rw [bestScore_cons, hmax]
            simpa using hj'max
          · intro k hk
            cases k with
            | zero =>
              rw [bestScore_cons, hmax]
              simpa using hbr
            | succ k' =>
              rw [bestScore_cons, hmax]
              have := hj'str k' (by omega)
              simpa using this
    · push_neg at hlt
      have hrec := ih (idx + 1) chosen best hbest
      obtain ⟨hB1, hB2⟩ := hrec
      have hnlt : ¬best < (tableScore t : Int) := not_lt.mpr hlt
      have hstep : chooseAux (t :: rest) idx chosen best
          = chooseAux rest (idx + 1) chosen best := by
        simp [chooseAux, hnlt]
      constructor
      · intro hle
        rw [hstep]
        apply hB1
        rw [bestScore_cons] at hle
        exact le_trans (le_max_right _ _) hle
      · intro hlt2
        rw [bestScore_cons] at hlt2
        have hbr : best < bestScore rest := by
          rcases max_cases (tableScore t : Int) (bestScore rest) with
            ⟨heq, _⟩ | ⟨heq, _⟩
          · rw [heq] at hlt2; omega
          · rw [heq] at hlt2; exact hlt2
        obtain ⟨j', hj'len, hj'eq, hj'max, hj'str⟩ := hB2 hbr
        have hmax : max (tableScore t : Int) (bestScore rest)
            = bestScore rest := max_eq_right (by omega)
        refine ⟨j' + 1, by simp only [List.length_cons]; omega, ?_, ?_, ?_⟩
        · rw [hstep, hj'eq]
          congr 1
          omega
        · rw [bestScore_cons, hmax]
          simpa using hj'max
        · intro k hk
          cases k with
          | zero =>
            rw [bestScore_cons, hmax]
            have : (tableScore t : Int) < bestScore rest := by omega
            simpa using this
          | succ k' =>
            rw [bestScore_cons, hmax]
            have := hj'str k' (by omega)
            simpa using this

/-- Claim C8: for every non-empty list of tables, selection returns the
table whose header texts contain the greatest number of date-pattern
matches (substrings of one-or-two digits, a slash, one-or-two digits),
choosing the earliest such table on ties; for an empty list it returns no
table. -/
theorem C8_choose_calendar_table (ts : List Table) :
    (ts = [] → choose_calendar_table ts = none) ∧
    (ts ≠ [] → ∃ j, j < ts.length ∧
      choose_calendar_table ts = some (ts.getD j dummyTable) ∧
      (∀ u ∈ ts, tableScore u ≤ tableScore (ts.getD j dummyTable)) ∧
      (∀ k, k < j →
        tableScore (ts.getD k dummyTable) <
          tableScore (ts.getD j dummyTable))) := by
  constructor
  · intro h
    subst h
    rfl
  · intro hne
    have hpos : (-1 : Int) < bestScore ts := by
      cases ts with
      | nil => exact absurd rfl hne
      | cons a rest =>
        have h0 : (0 : Int) ≤ (tableScore a : Int) := Int.natCast_nonneg _
        have h1 : (tableScore a : Int) ≤ bestScore (a :: rest) :=
          le_bestScore (a :: rest) a (by simp)
        omega
    obtain ⟨j, hjlen, heq, hmax, hstr⟩ :=
      (chooseAux_spec ts 0 none (-1) le_rfl).2 hpos
    refine ⟨j, hjlen, ?_, ?_, ?_⟩
    · unfold choose_calendar_table chooseIdx
      rw [heq]
      simpa using get?_getD_of_lt dummyTable ts j hjlen
    · intro u hu
      have h1 := le_bestScore ts u hu
      rw [← hmax] at h1
      exact_mod_cast h1
    · intro k hk
      have h2 := hstr k hk
      rw [← hmax] at h2
      exact_mod_cast h2

/-- Witness for C8: of two demo tables, the second — with two date-like
headers against none — is chosen. -/
theorem C8_choose_calendar_table_witness :
    demoTs ≠ [] ∧ ∃ j, j < demoTs.length ∧
      choose_calendar_table demoTs = some (demoTs.getD j dummyTable) ∧
      (∀ u ∈ demoTs, tableScore u ≤ tableScore (demoTs.getD j dummyTable)) ∧
      (∀ k, k < j →
        tableScore (demoTs.getD k dummyTable) <
          tableScore (demoTs.getD j dummyTable)) :=
  ⟨by decide, (C8_choose_calendar_table demoTs).2 (by decide)⟩

end Fumotoppara
